import Mathlib

/-!
Verification of the ChatGPT MCP tool server (`index.ts`).

This file gives a shallow embedding of the server's core: the argument
validator `isChatGPTArgs`, the rate limiter `waitForRateLimit`, the
availability check `checkChatGPTAccess`, the two dispatch operations
`askChatGPT` and `getConversations`, and the `CallToolRequestSchema`
handler.  External effects (the AppleScript bridge, the clock) are passed
in explicitly as environment records; the events a dispatch performs are
returned as an explicit trace so that ordering properties can be stated.
Millisecond timestamps are modelled as `Int` (the claims only involve
integral values of JavaScript numbers).
-/

namespace ChatGPTMCP

/-- Dynamic value of one argument field, as JavaScript sees it: a string,
a number, a boolean, null, or some other object. -/
inductive JSVal where
  | str (s : String)
  | num (n : Int)
  | boolean (b : Bool)
  | nullV
  | obj
deriving DecidableEq

/-- Argument object of a `chatgpt` tool call: each of the four fields may be
absent (`none` models JavaScript `undefined`). -/
structure Args where
  operation : Option JSVal
  prompt : Option JSVal
  conversation_id : Option JSVal
  delay_ms : Option JSVal
deriving DecidableEq

/-- JavaScript truthiness of an optional field: `undefined`, the empty
string, `0`, `false` and `null` are falsy, everything else is truthy. -/
def truthy : Option JSVal → Bool
  | none => false
  | some (.str s) => s != ""
  | some (.num n) => n != 0
  | some (.boolean b) => b
  | some .nullV => false
  | some .obj => true

/-- JavaScript `typeof v === "string"` on an optional field. -/
def isStringVal : Option JSVal → Bool
  | some (.str _) => true
  | _ => false

/-- JavaScript `typeof v === "number"` on an optional field. -/
def isNumberVal : Option JSVal → Bool
  | some (.num _) => true
  | _ => false

/-- JavaScript `["ask", "get_conversations"].includes(operation)`. -/
def operationIncluded : Option JSVal → Bool
  | some (.str "ask") => true
  | some (.str "get_conversations") => true
  | _ => false

/-- The type guard `isChatGPTArgs` (index.ts lines 196-219), clause by
clause: operation must be truthy and one of the two known strings; `ask`
requires a truthy prompt; a present (truthy) prompt or conversation id must
be a string; a present (not undefined) `delay_ms` must be a number. -/
def isChatGPTArgs (args : Args) : Bool :=
  if !truthy args.operation || !operationIncluded args.operation then false
  else if args.operation == some (JSVal.str "ask") && !truthy args.prompt then false
  else if truthy args.prompt && !isStringVal args.prompt then false
  else if truthy args.conversation_id && !isStringVal args.conversation_id then false
  else if args.delay_ms != none && !isNumberVal args.delay_ms then false
  else true

/-- The constant `RATE_LIMIT_DELAY` (line 56): 120000 ms. -/
def RATE_LIMIT_DELAY : Int := 120000

/-- Interval selected on line 62, JavaScript `customDelay || RATE_LIMIT_DELAY`:
an absent custom delay, and also a supplied `0` (falsy), fall back to the
default; any other supplied value, negative ones included, is used as is. -/
def delayToUse : Option Int → Int
  | none => RATE_LIMIT_DELAY
  | some d => if d = 0 then RATE_LIMIT_DELAY else d

/-- Suspension performed by `waitForRateLimit` (lines 59-69): when the time
since the last request is below the selected interval the caller sleeps for
the difference, otherwise it does not sleep (a wait of 0). -/
def waitTime (lastRequestTime now : Int) (customDelay : Option Int) : Int :=
  let timeSinceLastRequest := now - lastRequestTime
  let d := delayToUse customDelay
  if timeSinceLastRequest < d then d - timeSinceLastRequest else 0

/-- Mutable server state: the module-level `lastRequestTime` (line 55). -/
structure ServerState where
  lastRequestTime : Int
deriving DecidableEq

/-- Decidable equality for `Except`, needed so the environment records can
be compared in evaluated examples. -/
instance {ε α : Type} [DecidableEq ε] [DecidableEq α] : DecidableEq (Except ε α)
  | .ok a, .ok b => if h : a = b then .isTrue (by rw [h]) else .isFalse (by simp [h])
  | .ok _, .error _ => .isFalse (by simp)
  | .error _, .ok _ => .isFalse (by simp)
  | .error e, .error f => if h : e = f then .isTrue (by rw [h]) else .isFalse (by simp [h])

/-- Outcomes of the two AppleScript calls made by `checkChatGPTAccess`:
the process-exists query (which returns a string or throws) and the
activation script (which may throw). -/
structure ProbeEnv where
  existsCheck : Except String String
  activate : Except String Unit
deriving DecidableEq

/-- Message built on lines 96-98 when the availability check fails. -/
def accessFailureMsg (e : String) : String :=
  "Cannot access ChatGPT app. Please make sure ChatGPT is installed and properly configured. Error: " ++ e

/-- Embedding of `checkChatGPTAccess` (lines 72-100): if the process-exists query throws,
the outer catch wraps the message; if the app is not running and activation
throws, the thrown "Could not activate" error is wrapped by the same outer
catch; otherwise the check succeeds (optimistically after activation). -/
def checkChatGPTAccess (env : ProbeEnv) : Except String Unit :=
  match env.existsCheck with
  | .error e => .error (accessFailureMsg e)
  | .ok isRunning =>
    if isRunning != "true" then
      match env.activate with
      | .error _ => .error (accessFailureMsg "Could not activate ChatGPT app. Please start it manually.")
      | .ok _ => .ok ()
    else
      .ok ()

/-- Observable steps of one dispatch, in order: the availability probe, the
rate-limit sleep (with its duration), the write to `lastRequestTime` (with
the written value), the ask interaction script (with the keystroke payload
it types), and the conversation-listing script. -/
inductive Event where
  | probe
  | waited (ms : Int)
  | timestampWrite (t : Int)
  | askScript (keystrokes : String)
  | listScript
deriving DecidableEq

/-- Character-level body of `prompt.replace(/"/g, '\\"')` (line 128): every
double quote is replaced by a backslash followed by the quote; all other
characters, backslashes included, pass through unchanged. -/
def escapeQuotesCL : List Char → List Char
  | [] => []
  | c :: cs => if c = '"' then '\\' :: '"' :: escapeQuotesCL cs else c :: escapeQuotesCL cs

/-- The escaping applied to the prompt before it is interpolated into the
keystroke command (line 128). -/
def escapeQuotes (s : String) : String :=
  ⟨escapeQuotesCL s.data⟩

/-- Reply-read step of the ask AppleScript (lines 133-141): the value of the
reply text area when it can be read, otherwise the literal fallback set by
the `on error` branch. -/
def askScriptResponse : Option String → String
  | some v => v
  | none => "Could not retrieve the response from ChatGPT."

/-- Environment of one `askChatGPT` call: the probe outcomes, whether the
interaction script itself throws (`scriptError`), the reply text area value
(`none` when reading it errors), and the two `Date.now()` readings (line 60
inside `waitForRateLimit` and line 108 at the timestamp write). -/
structure AskEnv where
  probe : ProbeEnv
  scriptError : Option String
  replyRead : Option String
  nowAtWait : Int
  nowAtDispatch : Int
deriving DecidableEq

/-- Embedding of `askChatGPT` (lines 103-152): check access (thrown errors propagate
unwrapped, before the timestamp write), wait for the rate limit, write
`lastRequestTime`, then run the interaction script; a script throw is
wrapped as "Failed to get response from ChatGPT: ..." by the catch on
lines 148-151, after the timestamp write, which is not rolled back. -/
def askChatGPT (prompt : String) (conversationId : Option String) (customDelay : Option Int)
    (env : AskEnv) (st : ServerState) :
    List Event × Except String String × ServerState :=
  match checkChatGPTAccess env.probe with
  | .error e => ([Event.probe], Except.error e, st)
  | .ok _ =>
    let w := waitTime st.lastRequestTime env.nowAtWait customDelay
    let st' : ServerState := ⟨env.nowAtDispatch⟩
    match env.scriptError with
    | some e =>
      ([Event.probe, Event.waited w, Event.timestampWrite env.nowAtDispatch,
        Event.askScript (escapeQuotes prompt)],
       Except.error ("Failed to get response from ChatGPT: " ++ e), st')
    | none =>
      ([Event.probe, Event.waited w, Event.timestampWrite env.nowAtDispatch,
        Event.askScript (escapeQuotes prompt)],
       Except.ok (askScriptResponse env.replyRead), st')

/-- Repeat loop of the conversations AppleScript (lines 167-176): walk the
chat buttons in order, appending each name that is not "New chat" to the
end of the accumulated list. -/
def conversationsListScript (chatButtons : List String) : List String :=
  chatButtons.foldl
    (fun conversationsList buttonName =>
      if buttonName ≠ "New chat" then conversationsList ++ [buttonName] else conversationsList)
    []

/-- Environment of one `getConversations` call: the probe outcomes and the
outcome of the listing script (the string the bridge returns, or a throw). -/
structure ListEnv where
  probe : ProbeEnv
  script : Except String String
deriving DecidableEq

/-- Embedding of `getConversations` (lines 155-194): check access (thrown errors
propagate, the call sits before the try block), then run the listing script;
on success split the bridge's string on ", ", and on a script throw return
the sentinel list from the catch on lines 190-193. -/
def getConversations (env : ListEnv) : List Event × Except String (List String) :=
  match checkChatGPTAccess env.probe with
  | .error e => ([Event.probe], Except.error e)
  | .ok _ =>
    match env.script with
    | .error _ => ([Event.probe, Event.listScript], Except.ok ["Error retrieving conversations"])
    | .ok result => ([Event.probe, Event.listScript], Except.ok (result.splitOn ", "))

/-- One entry of the response `content` list together with the `isError`
flag of the envelope returned to the transport. -/
structure Envelope where
  text : String
  isError : Bool
deriving DecidableEq

/-- String rendering of an argument field, used only by the unreachable
default branch of the operation switch. -/
def jsValText : Option JSVal → String
  | some (.str s) => s
  | some (.num n) => toString n
  | some (.boolean b) => toString b
  | some .nullV => "null"
  | some .obj => "[object Object]"
  | none => "undefined"

/-- Prompt narrowing used on line 244: after validation the prompt is a
string; any other shape reads as the empty string. -/
def promptString : Option JSVal → String
  | some (.str s) => s
  | _ => ""

/-- Conversation id narrowing: line 246 passes `args.conversation_id`. -/
def conversationIdArg : Option JSVal → Option String
  | some (.str s) => some s
  | _ => none

/-- Delay narrowing: line 247 passes `args.delay_ms`. -/
def delayMsArg : Option JSVal → Option Int
  | some (.num n) => some n
  | _ => none

/-- The `CallToolRequestSchema` handler (lines 225-293): reject missing
arguments, reject arguments failing `isChatGPTArgs`, re-check the prompt,
dispatch `ask` or `get_conversations`, and map thrown errors to an
`isError` envelope with an "Error: " prefix.  Returns the envelope, the
resulting server state, and the trace of dispatch events. -/
def handleCallTool (name : String) (args : Option Args) (env : AskEnv) (lenv : ListEnv)
    (st : ServerState) : Envelope × ServerState × List Event :=
  match args with
  | none => (⟨"Error: No arguments provided", true⟩, st, [])
  | some a =>
    if name = "chatgpt" then
      if !isChatGPTArgs a then
        (⟨"Error: Invalid arguments for ChatGPT tool", true⟩, st, [])
      else
        match a.operation with
        | some (JSVal.str "ask") =>
          if !truthy a.prompt then
            (⟨"Error: Prompt is required for ask operation", true⟩, st, [])
          else
            match askChatGPT (promptString a.prompt) (conversationIdArg a.conversation_id)
                (delayMsArg a.delay_ms) env st with
            | (evs, Except.ok response, st') =>
              (⟨if response = "" then "No response received from ChatGPT." else response, false⟩,
               st', evs)
            | (evs, Except.error msg, st') =>
              (⟨"Error: " ++ msg, true⟩, st', evs)
        | some (JSVal.str "get_conversations") =>
          match getConversations lenv with
          | (evs, Except.ok conversations) =>
            (⟨if conversations.length > 0 then
                "Found " ++ toString conversations.length ++ " conversation(s):\n\n" ++
                  String.intercalate "\n" conversations
              else "No conversations found in ChatGPT.", false⟩, st, evs)
          | (evs, Except.error msg) =>
            (⟨"Error: " ++ msg, true⟩, st, evs)
        | op => (⟨"Error: Unknown operation: " ++ jsValText op, true⟩, st, [])
    else
      (⟨"Unknown tool: " ++ name, true⟩, st, [])

/-! Spec-side definitions, written from the specification text rather than
from the source, for the refinement comparisons. -/

/-- Spec-side rate limiter exactly as the spec words it: the interval is
`customIntervalMs ?? defaultIntervalMs`, so a supplied 0 is honoured and
disables the wait. -/
def waitTimeClaimedSpec (lastDispatchTimestamp now : Int) (customIntervalMs : Option Int) : Int :=
  let elapsed := now - lastDispatchTimestamp
  let interval := customIntervalMs.getD RATE_LIMIT_DELAY
  if elapsed < interval then interval - elapsed else 0

/-- Spec-side rate limiter with the amended interval choice: the supplied
value is used when nonzero, and an absent or zero value falls back to the
default interval. -/
def waitTimeAmendedSpec (lastDispatchTimestamp now : Int) (customIntervalMs : Option Int) : Int :=
  let elapsed := now - lastDispatchTimestamp
  let interval :=
    match customIntervalMs with
    | some d => if d = 0 then RATE_LIMIT_DELAY else d
    | none => RATE_LIMIT_DELAY
  if elapsed < interval then interval - elapsed else 0

/-- Boolean test that `pat` occurs at the head of `l`, on character lists. -/
def startsWithCL : List Char → List Char → Bool
  | [], _ => true
  | _ :: _, [] => false
  | p :: ps, c :: cs => p == c && startsWithCL ps cs

/-- Boolean test that `pat` occurs somewhere inside `l`, on character lists. -/
def hasSubstrCL (pat : List Char) : List Char → Bool
  | [] => startsWithCL pat []
  | c :: cs => startsWithCL pat (c :: cs) || hasSubstrCL pat cs

/-- Boolean test that the string `pat` occurs inside the string `s`. -/
def containsSubstr (s pat : String) : Bool :=
  hasSubstrCL pat.data s.data

/-- Spec-side escaping contract, scanning left to right: a double quote is
unescaped when the run of backslashes immediately before it has even length
(each pair collapses to a literal backslash), and such a quote terminates
the scripted string early.  `pending` counts the backslashes seen since the
last non-backslash character. -/
def hasUnescapedQuoteAux : List Char → Nat → Bool
  | [], _ => false
  | c :: rest, pending =>
    if c = '"' then
      if pending % 2 = 0 then true else hasUnescapedQuoteAux rest 0
    else if c = '\\' then hasUnescapedQuoteAux rest (pending + 1)
    else hasUnescapedQuoteAux rest 0

/-- Boolean test that a string contains a double quote the scripting layer
would read as unescaped. -/
def hasUnescapedQuote (s : String) : Bool :=
  hasUnescapedQuoteAux s.data 0

/-! Helper lemmas. -/

/-- Unfolding lemma for the conversation-collection loop: folding from any
accumulator appends exactly the names different from "New chat", in order. -/
theorem convLoop_eq_append_filter (l acc : List String) :
    l.foldl
      (fun conversationsList buttonName =>
        if buttonName ≠ "New chat" then conversationsList ++ [buttonName] else conversationsList)
      acc
      = acc ++ l.filter (fun buttonName => buttonName != "New chat") := by
  induction l generalizing acc with
  | nil => simp
  | cons n rest ih =>
    rw [List.foldl_cons, ih, List.filter_cons]
    by_cases h : n = "New chat"
    · subst h
      simp
    · simp [h]

/-- Escaping a backslash-free character list leaves no unescaped quote:
every quote in the output is immediately preceded by the single backslash
the replacement inserted. -/
theorem hasUnescapedQuoteAux_escape (l : List Char) (hl : '\\' ∉ l) :
    hasUnescapedQuoteAux (escapeQuotesCL l) 0 = false := by
  induction l with
  | nil => rfl
  | cons c cs ih =>
    have hc : c ≠ '\\' := fun h => hl (h ▸ List.mem_cons_self c cs)
    have hcs : '\\' ∉ cs := fun h => hl (List.mem_cons_of_mem _ h)
    by_cases hq : c = '"'
    · subst hq
      simp [escapeQuotesCL, hasUnescapedQuoteAux, ih hcs]
    · simp [escapeQuotesCL, hasUnescapedQuoteAux, hq, hc, ih hcs]

/-! Claims. -/

/-- C1 (amended): the rate limiter computes `elapsed = now - lastDispatchTimestamp`
and `interval = customIntervalMs` when supplied and nonzero, else 120000
(the `||` fallback also swallows a supplied 0), suspends for exactly
`interval - elapsed` when `elapsed < interval` and otherwise proceeds with
no suspension; with `lastDispatchTimestamp = T0` and a dispatch at
`T0 + 30000` under the default interval the wait is exactly 90000 ms. -/
theorem c1_rate_limiter_amended (t0 now : Int) (cd : Option Int) :
    waitTime t0 now cd = waitTimeAmendedSpec t0 now cd ∧
    waitTime t0 (t0 + 30000) none = 90000 := by
  constructor
  · cases cd <;> rfl
  · simp only [waitTime, delayToUse, RATE_LIMIT_DELAY]
    split_ifs <;> omega

/-- C1 counterexample: with a supplied custom interval of 0 and no elapsed
time, the claim's `interval = customIntervalMs if supplied` algorithm
prescribes no suspension, but the code suspends for 120000 ms because
`customDelay || RATE_LIMIT_DELAY` discards the falsy 0. -/
theorem c1_counterexample :
    waitTime 1000 1000 (some 0) = 120000 ∧ waitTimeClaimedSpec 1000 1000 (some 0) = 0 := by
  decide

/-- C2 (amended): a `delayOverrideMs` of 0 does not disable throttling for
the call; it is treated like an absent override, so the default 120000 ms
interval applies and a dispatch issued immediately after a prior one
suspends for the full default interval; calls with no override keep using
the unchanged default interval exactly as specified. -/
theorem c2_zero_delay_amended (t0 now : Int) :
    waitTime t0 now (some 0) = waitTime t0 now none ∧
    waitTime t0 t0 (some 0) = RATE_LIMIT_DELAY ∧
    waitTime t0 now none = waitTimeClaimedSpec t0 now none := by
  refine ⟨rfl, ?_, rfl⟩
  simp only [waitTime, delayToUse, RATE_LIMIT_DELAY]
  split_ifs <;> omega

/-- C2 counterexample: a dispatch with `delayOverrideMs = 0` issued at the
very instant of the previous one suspends for 120000 ms, not 0. -/
theorem c2_counterexample :
    waitTime 5000 5000 (some 0) = 120000 ∧ waitTime 5000 5000 (some 0) ≠ 0 := by
  decide

/-- C8: on an arbitrary ordered list of UI element names, the conversation
collection loop returns exactly the names that are not "New chat", in
order, and the result may be empty. -/
theorem c8_list_excludes_new_chat (names : List String) :
    conversationsListScript names = names.filter (fun buttonName => buttonName != "New chat") ∧
    conversationsListScript ["New chat"] = [] := by
  constructor
  · unfold conversationsListScript
    simpa using convLoop_eq_append_filter names []
  · decide

/-- C9: a negative `delay_ms` passes validation (only its being a number is
checked), and the rate limiter then performs no suspension regardless of
how recently the previous dispatch occurred, since the nonnegative elapsed
time is never below a negative interval. -/
theorem c9_negative_delay_accepted (p : String) (d lastReq now : Int)
    (hp : p ≠ "") (hd : d < 0) (hclock : lastReq ≤ now) :
    isChatGPTArgs ⟨some (JSVal.str "ask"), some (JSVal.str p), none, some (JSVal.num d)⟩ = true ∧
    waitTime lastReq now (some d) = 0 := by
  constructor
  · simp [isChatGPTArgs, truthy, operationIncluded, isStringVal, isNumberVal, hp]
  · simp only [waitTime, delayToUse, RATE_LIMIT_DELAY]
    split_ifs <;> omega

/-- C3 (amended): if the availability check fails, `ask` returns an error
envelope whose text is "Error: " followed by the availability failure
message (which begins "Cannot access ChatGPT app", not "Failed to get
response from ChatGPT"), with the state untouched and no adapter call; and
`get_conversations` also returns an error envelope with the same text, not
a success envelope — the success envelope listing exactly
["Error retrieving conversations"] arises only when the listing script
itself fails after a successful availability check. -/
theorem c3_availability_asymmetry_amended
    (e m p : String) (act : Except String Unit) (se rr : Option String) (nw nd : Int)
    (ls : Except String String) (env : AskEnv) (lenv : ListEnv) (st : ServerState)
    (hprobe : checkChatGPTAccess env.probe = Except.ok ()) (hp : p ≠ "") :
    (handleCallTool "chatgpt" (some ⟨some (JSVal.str "ask"), some (JSVal.str p), none, none⟩)
        ⟨⟨Except.error e, act⟩, se, rr, nw, nd⟩ lenv st)
      = (⟨"Error: " ++ accessFailureMsg e, true⟩, st, [Event.probe]) ∧
    (handleCallTool "chatgpt" (some ⟨some (JSVal.str "get_conversations"), none, none, none⟩)
        env ⟨⟨Except.error e, act⟩, ls⟩ st).1
      = ⟨"Error: " ++ accessFailureMsg e, true⟩ ∧
    (handleCallTool "chatgpt" (some ⟨some (JSVal.str "get_conversations"), none, none, none⟩)
        env ⟨env.probe, Except.error m⟩ st).1
      = ⟨"Found 1 conversation(s):\n\nError retrieving conversations", false⟩ := by
  refine ⟨?_, ?_, ?_⟩
  · simp [handleCallTool, isChatGPTArgs, truthy, operationIncluded, isStringVal, hp,
      askChatGPT, checkChatGPTAccess, promptString]
  · simp [handleCallTool, isChatGPTArgs, truthy, operationIncluded,
      getConversations, checkChatGPTAccess]
  · simp [handleCallTool, isChatGPTArgs, truthy, operationIncluded,
      getConversations, hprobe]
    rfl

/-- C3 counterexample: with a failing availability probe, `ask` yields an
error envelope that does not contain "Failed to get response from ChatGPT",
and `get_conversations` yields an error envelope rather than a success
envelope listing ["Error retrieving conversations"]. -/
theorem c3_counterexample :
    ((handleCallTool "chatgpt" (some ⟨some (JSVal.str "ask"), some (JSVal.str "hi"), none, none⟩)
        ⟨⟨Except.error "boom", Except.ok ()⟩, none, none, 0, 0⟩
        ⟨⟨Except.error "boom", Except.ok ()⟩, Except.ok ""⟩ ⟨0⟩).1.isError = true
      ∧ containsSubstr
          (handleCallTool "chatgpt" (some ⟨some (JSVal.str "ask"), some (JSVal.str "hi"), none, none⟩)
            ⟨⟨Except.error "boom", Except.ok ()⟩, none, none, 0, 0⟩
            ⟨⟨Except.error "boom", Except.ok ()⟩, Except.ok ""⟩ ⟨0⟩).1.text
          "Failed to get response from ChatGPT" = false)
    ∧ (handleCallTool "chatgpt" (some ⟨some (JSVal.str "get_conversations"), none, none, none⟩)
        ⟨⟨Except.error "boom", Except.ok ()⟩, none, none, 0, 0⟩
        ⟨⟨Except.error "boom", Except.ok ()⟩, Except.ok ""⟩ ⟨0⟩).1.isError = true := by
  decide

/-- C3 witness: the amended claim applied at a concrete failing probe, a
concrete listing-script failure, and a concrete prompt. -/
theorem c3_amended_witness :
    checkChatGPTAccess ⟨Except.ok "true", Except.ok ()⟩ = Except.ok () ∧ ("hi" : String) ≠ "" ∧
    ((handleCallTool "chatgpt" (some ⟨some (JSVal.str "ask"), some (JSVal.str "hi"), none, none⟩)
        ⟨⟨Except.error "boom", Except.ok ()⟩, none, none, 0, 0⟩
        ⟨⟨Except.ok "true", Except.ok ()⟩, Except.ok ""⟩ ⟨0⟩)
      = (⟨"Error: " ++ accessFailureMsg "boom", true⟩, ⟨0⟩, [Event.probe]) ∧
    (handleCallTool "chatgpt" (some ⟨some (JSVal.str "get_conversations"), none, none, none⟩)
        ⟨⟨Except.ok "true", Except.ok ()⟩, none, none, 0, 0⟩
        ⟨⟨Except.error "boom", Except.ok ()⟩, Except.ok ""⟩ ⟨0⟩).1
      = ⟨"Error: " ++ accessFailureMsg "boom", true⟩ ∧
    (handleCallTool "chatgpt" (some ⟨some (JSVal.str "get_conversations"), none, none, none⟩)
        ⟨⟨Except.ok "true", Except.ok ()⟩, none, none, 0, 0⟩
        ⟨⟨Except.ok "true", Except.ok ()⟩, Except.error "x"⟩ ⟨0⟩).1
      = ⟨"Found 1 conversation(s):\n\nError retrieving conversations", false⟩) :=
  ⟨rfl, by decide,
    c3_availability_asymmetry_amended "boom" "x" "hi" (Except.ok ()) none none 0 0
      (Except.ok "") ⟨⟨Except.ok "true", Except.ok ()⟩, none, none, 0, 0⟩
      ⟨⟨Except.ok "true", Except.ok ()⟩, Except.ok ""⟩ ⟨0⟩ rfl (by decide)⟩

/-- C4: when every step up to the reply read succeeds but the reply read
fails, the ask operation still succeeds, returning exactly the fallback
text "Could not retrieve the response from ChatGPT.", and the handler
envelope carries that text with `isError = false`. -/
theorem c4_reply_read_fallback
    (p : String) (cid : Option String) (cd : Option Int) (probe : ProbeEnv)
    (nw nd : Int) (st : ServerState) (lenv : ListEnv)
    (hprobe : checkChatGPTAccess probe = Except.ok ()) (hp : p ≠ "") :
    (askChatGPT p cid cd ⟨probe, none, none, nw, nd⟩ st).2.1
      = Except.ok "Could not retrieve the response from ChatGPT." ∧
    (handleCallTool "chatgpt" (some ⟨some (JSVal.str "ask"), some (JSVal.str p), none, none⟩)
        ⟨probe, none, none, nw, nd⟩ lenv st).1
      = ⟨"Could not retrieve the response from ChatGPT.", false⟩ := by
  constructor
  · simp [askChatGPT, hprobe, askScriptResponse]
  · simp [handleCallTool, isChatGPTArgs, truthy, operationIncluded, isStringVal, hp,
      askChatGPT, hprobe, askScriptResponse, promptString]

/-- C4 witness: the fallback behaviour at a concrete healthy probe and a
concrete prompt. -/
theorem c4_witness :
    checkChatGPTAccess ⟨Except.ok "true", Except.ok ()⟩ = Except.ok () ∧ ("hi" : String) ≠ "" ∧
    ((askChatGPT "hi" none none ⟨⟨Except.ok "true", Except.ok ()⟩, none, none, 0, 7⟩ ⟨0⟩).2.1
        = Except.ok "Could not retrieve the response from ChatGPT." ∧
      (handleCallTool "chatgpt" (some ⟨some (JSVal.str "ask"), some (JSVal.str "hi"), none, none⟩)
          ⟨⟨Except.ok "true", Except.ok ()⟩, none, none, 0, 7⟩
          ⟨⟨Except.ok "true", Except.ok ()⟩, Except.ok ""⟩ ⟨0⟩).1
        = ⟨"Could not retrieve the response from ChatGPT.", false⟩) :=
  ⟨rfl, by decide,
    c4_reply_read_fallback "hi" none none ⟨Except.ok "true", Except.ok ()⟩ 0 7 ⟨0⟩
      ⟨⟨Except.ok "true", Except.ok ()⟩, Except.ok ""⟩ rfl (by decide)⟩

/-- C5: an `ask` request with a missing or empty prompt is rejected by the
frontend validator with an error envelope, the server state (and so the
rate-limiter timestamp) is unchanged, and no dispatch event occurs — the
availability prober and the adapter are never invoked. -/
theorem c5_empty_prompt_rejected (a : Args) (env : AskEnv) (lenv : ListEnv) (st : ServerState)
    (hop : a.operation = some (JSVal.str "ask"))
    (hp : a.prompt = none ∨ a.prompt = some (JSVal.str "")) :
    handleCallTool "chatgpt" (some a) env lenv st
      = (⟨"Error: Invalid arguments for ChatGPT tool", true⟩, st, []) := by
  rcases hp with hp | hp <;>
    simp [handleCallTool, isChatGPTArgs, hop, hp, truthy, operationIncluded]

/-- C5 witness: the rejection at a concrete request with a missing prompt
and at one with an empty prompt. -/
theorem c5_witness :
    (⟨some (JSVal.str "ask"), none, none, none⟩ : Args).operation = some (JSVal.str "ask") ∧
    ((⟨some (JSVal.str "ask"), none, none, none⟩ : Args).prompt = none ∨
      (⟨some (JSVal.str "ask"), none, none, none⟩ : Args).prompt = some (JSVal.str "")) ∧
    handleCallTool "chatgpt" (some ⟨some (JSVal.str "ask"), none, none, none⟩)
        ⟨⟨Except.ok "true", Except.ok ()⟩, none, none, 0, 0⟩
        ⟨⟨Except.ok "true", Except.ok ()⟩, Except.ok ""⟩ ⟨42⟩
      = (⟨"Error: Invalid arguments for ChatGPT tool", true⟩, ⟨42⟩, []) :=
  ⟨rfl, Or.inl rfl,
    c5_empty_prompt_rejected ⟨some (JSVal.str "ask"), none, none, none⟩
      ⟨⟨Except.ok "true", Except.ok ()⟩, none, none, 0, 0⟩
      ⟨⟨Except.ok "true", Except.ok ()⟩, Except.ok ""⟩ ⟨42⟩ rfl (Or.inl rfl)⟩

/-- C6: within an ask dispatch whose availability check succeeds, the
trace is exactly probe, wait, timestamp write, adapter script — so
`lastRequestTime` is written exactly once, after the rate-limit wait
completes and strictly before the adapter interaction, and the final state
holds the written value; when the availability check fails the dispatch
performs no timestamp write at all and the state is unchanged. -/
theorem c6_timestamp_write_position (p : String) (cid : Option String) (cd : Option Int)
    (env : AskEnv) (st : ServerState) :
    (checkChatGPTAccess env.probe = Except.ok () →
      (askChatGPT p cid cd env st).1
        = [Event.probe, Event.waited (waitTime st.lastRequestTime env.nowAtWait cd),
           Event.timestampWrite env.nowAtDispatch, Event.askScript (escapeQuotes p)] ∧
      (askChatGPT p cid cd env st).2.2 = ⟨env.nowAtDispatch⟩) ∧
    (∀ e, checkChatGPTAccess env.probe = Except.error e →
      (askChatGPT p cid cd env st).1 = [Event.probe] ∧
      (askChatGPT p cid cd env st).2.2 = st) := by
  constructor
  · intro h
    cases hse : env.scriptError <;> simp [askChatGPT, h, hse]
  · intro e h
    simp [askChatGPT, h]

/-- C6 witness: the trace shape at a concrete healthy dispatch and at a
concrete dispatch whose availability check fails. -/
theorem c6_witness :
    ((askChatGPT "hi" none none ⟨⟨Except.ok "true", Except.ok ()⟩, none, none, 3, 9⟩ ⟨3⟩).1
        = [Event.probe, Event.waited (waitTime 3 3 none), Event.timestampWrite 9,
           Event.askScript (escapeQuotes "hi")] ∧
      (askChatGPT "hi" none none ⟨⟨Except.ok "true", Except.ok ()⟩, none, none, 3, 9⟩ ⟨3⟩).2.2
        = ⟨9⟩) ∧
    ((askChatGPT "hi" none none ⟨⟨Except.error "boom", Except.ok ()⟩, none, none, 3, 9⟩ ⟨3⟩).1
        = [Event.probe] ∧
      (askChatGPT "hi" none none ⟨⟨Except.error "boom", Except.ok ()⟩, none, none, 3, 9⟩ ⟨3⟩).2.2
        = ⟨3⟩) :=
  ⟨(c6_timestamp_write_position "hi" none none
      ⟨⟨Except.ok "true", Except.ok ()⟩, none, none, 3, 9⟩ ⟨3⟩).1 rfl,
    (c6_timestamp_write_position "hi" none none
      ⟨⟨Except.error "boom", Except.ok ()⟩, none, none, 3, 9⟩ ⟨3⟩).2
      (accessFailureMsg "boom") rfl⟩

/-- C7 (amended): the dispatch transmits to the adapter exactly the prompt
with every double quote replaced by a backslash-quote pair; for prompts
that contain no backslash of their own this leaves no unescaped quote, but
backslashes are not escaped, so the protection fails on prompts containing
a backslash immediately before a quote (see the counterexample). -/
theorem c7_escaping_amended (p : String) (cid : Option String) (cd : Option Int)
    (env : AskEnv) (st : ServerState)
    (hprobe : checkChatGPTAccess env.probe = Except.ok ())
    (hnb : '\\' ∉ p.data) :
    Event.askScript (escapeQuotes p) ∈ (askChatGPT p cid cd env st).1 ∧
    hasUnescapedQuote (escapeQuotes p) = false := by
  constructor
  · cases hse : env.scriptError <;> simp [askChatGPT, hprobe, hse]
  · exact hasUnescapedQuoteAux_escape p.data hnb

/-- C7 counterexample: the two-character prompt backslash-quote contains a
double quote, yet after the replacement the command holds the quote behind
an even run of backslashes, so the scripting layer reads it unescaped and
the string terminates early. -/
theorem c7_counterexample :
    containsSubstr "\\\"" "\"" = true ∧ hasUnescapedQuote (escapeQuotes "\\\"") = true := by
  decide

/-- C7 witness: the amended escaping guarantee at a concrete healthy
dispatch of a backslash-free prompt containing quotes. -/
theorem c7_witness :
    checkChatGPTAccess ⟨Except.ok "true", Except.ok ()⟩ = Except.ok () ∧
    '\\' ∉ ("say \"hi\"" : String).data ∧
    (Event.askScript (escapeQuotes "say \"hi\"")
        ∈ (askChatGPT "say \"hi\"" none none
            ⟨⟨Except.ok "true", Except.ok ()⟩, none, none, 0, 0⟩ ⟨0⟩).1 ∧
      hasUnescapedQuote (escapeQuotes "say \"hi\"") = false) :=
  ⟨rfl, by decide,
    c7_escaping_amended "say \"hi\"" none none
      ⟨⟨Except.ok "true", Except.ok ()⟩, none, none, 0, 0⟩ ⟨0⟩ rfl (by decide)⟩

/-- C10: when the interaction script of an ask dispatch throws after the
rate-limit wait, the error is wrapped as "Failed to get response from
ChatGPT: ...", and `lastRequestTime` keeps the value written just before
the adapter call — the resulting state is identical to the state a
successful dispatch from the same environment would leave, so the next
dispatch is throttled relative to the failed attempt. -/
theorem c10_timestamp_kept_on_adapter_failure (p : String) (cid : Option String)
    (cd : Option Int) (env : AskEnv) (st : ServerState) (e : String)
    (hprobe : checkChatGPTAccess env.probe = Except.ok ())
    (herr : env.scriptError = some e) :
    (askChatGPT p cid cd env st).2.1
      = Except.error ("Failed to get response from ChatGPT: " ++ e) ∧
    (askChatGPT p cid cd env st).2.2 = ⟨env.nowAtDispatch⟩ ∧
    (askChatGPT p cid cd env st).2.2
      = (askChatGPT p cid cd { env with scriptError := none } st).2.2 := by
  refine ⟨?_, ?_, ?_⟩ <;> simp [askChatGPT, hprobe, herr]

/-- C10 witness: the kept timestamp at a concrete failing interaction. -/
theorem c10_witness :
    checkChatGPTAccess ⟨Except.ok "true", Except.ok ()⟩ = Except.ok () ∧
    (⟨⟨Except.ok "true", Except.ok ()⟩, some "ui broke", none, 0, 11⟩ : AskEnv).scriptError
      = some "ui broke" ∧
    ((askChatGPT "hi" none none
          ⟨⟨Except.ok "true", Except.ok ()⟩, some "ui broke", none, 0, 11⟩ ⟨0⟩).2.1
        = Except.error ("Failed to get response from ChatGPT: " ++ "ui broke") ∧
      (askChatGPT "hi" none none
          ⟨⟨Except.ok "true", Except.ok ()⟩, some "ui broke", none, 0, 11⟩ ⟨0⟩).2.2 = ⟨11⟩ ∧
      (askChatGPT "hi" none none
          ⟨⟨Except.ok "true", Except.ok ()⟩, some "ui broke", none, 0, 11⟩ ⟨0⟩).2.2
        = (askChatGPT "hi" none none
            { (⟨⟨Except.ok "true", Except.ok ()⟩, some "ui broke", none, 0, 11⟩ : AskEnv) with
              scriptError := none } ⟨0⟩).2.2) :=
  ⟨rfl, rfl,
    c10_timestamp_kept_on_adapter_failure "hi" none none
      ⟨⟨Except.ok "true", Except.ok ()⟩, some "ui broke", none, 0, 11⟩ ⟨0⟩ "ui broke" rfl rfl⟩

/-- C9 witness: the concrete request with `delay_ms = -5` is accepted and
waits 0 ms even 2 ms after the previous dispatch. -/
theorem c9_witness :
    ("hi" : String) ≠ "" ∧ (-5 : Int) < 0 ∧ (0 : Int) ≤ 2 ∧
    (isChatGPTArgs ⟨some (JSVal.str "ask"), some (JSVal.str "hi"), none,
        some (JSVal.num (-5))⟩ = true ∧
      waitTime 0 2 (some (-5)) = 0) :=
  ⟨by decide, by decide, by decide,
    c9_negative_delay_accepted "hi" (-5) 0 2 (by decide) (by decide) (by decide)⟩

end ChatGPTMCP
